import Mathlib

/-!
Verification of the appwright test-attempt instrumentation core.

This file gives a shallow embedding of:
* the Visual Trace decision engine and its per-attempt state registry
  (source: src/visualTrace/service.ts, class VisualTraceService);
* the persistent-device status coordinator on the Device class
  (source: src/device/index.ts);
* the worker lifecycle counter and idle wait
  (source: src/fixture/index.ts, runWithLifecycle and
  waitForLifecycleToComplete);
* the boxedStep action instrumentation wrapper (source: src/utils.ts).

Machine integers of the source are modelled as Nat, JavaScript string
values as String, byte buffers as List Nat, and the possibility of a
thrown exception as an Except value.  The SHA-256 content hash computed
by the external crypto library is modelled as an explicit function
parameter hashFn, since the hash algorithm itself is an external
collaborator of the repository.
-/

/-- The value of the enableScreenshots configuration field:
boolean or one of the strings on, off, retain-on-failure. -/
inductive EnableScreenshots where
  | bool (b : Bool)
  | on
  | off
  | retainOnFailure
deriving DecidableEq, Repr

/-- Resolved VisualTraceConfig, after constructor defaults were applied. -/
structure VisualTraceConfig where
  enableScreenshots : EnableScreenshots
  maxScreenshots : Nat
  dedupe : Bool
deriving DecidableEq, Repr

/-- Optional configuration passed to the VisualTraceService constructor. -/
structure VisualTraceConfigInput where
  enableScreenshots : Option EnableScreenshots
  maxScreenshots : Option Nat
  dedupe : Option Bool
deriving DecidableEq, Repr

/-- Constructor defaulting: enableScreenshots defaults to
retain-on-failure, maxScreenshots to 50, dedupe to true
(service.ts constructor, lines 24-29). -/
def resolveConfig (c : Option VisualTraceConfigInput) : VisualTraceConfig :=
  { enableScreenshots :=
      (c.bind (fun i => i.enableScreenshots)).getD .retainOnFailure
    maxScreenshots := (c.bind (fun i => i.maxScreenshots)).getD 50
    dedupe := (c.bind (fun i => i.dedupe)).getD true }

/-- The ambient Playwright trace setting testInfo.project.use?.trace:
absent, a plain string mode, or an object with a mode and an optional
screenshots flag. -/
inductive TraceSetting where
  | notSet
  | str (s : String)
  | obj (mode : Option String) (screenshots : Option Bool)
deriving DecidableEq, Repr

/-- The slice of the Playwright TestInfo object that the embedded code
reads: test id, title, retry index, current status, the message of each
recorded error (none models an error object without a message), the
top-level error message, the ambient trace setting and the project
visualTrace configuration. -/
structure TestInfo where
  testId : String
  title : String
  retry : Nat
  status : Option String
  errors : List (Option String)
  errorMsg : Option String
  trace : TraceSetting
  visualTraceCfg : Option VisualTraceConfigInput
deriving DecidableEq, Repr

/-- Mutable per-attempt state record (interface VisualTraceState). -/
structure VisualTraceState where
  screenshotCount : Nat
  dedupeHashes : List String
deriving DecidableEq, Repr

/-- The VisualTraceService instance: the states map (an association
list keyed by the serialized attempt key, later entries shadowing
earlier ones), the TestInfo, the retry index and the resolved config. -/
structure VisualTraceService where
  states : List (String × VisualTraceState)
  testInfo : TestInfo
  retryIndex : Nat
  config : VisualTraceConfig
deriving DecidableEq, Repr

namespace VisualTraceService

/-- Serialized attempt key, testId ++ "#" ++ retryIndex (service.ts
line 36). -/
def stateKey (testId : String) (retry : Nat) : String :=
  testId ++ "#" ++ Nat.repr retry

/-- Lookup in the states map. -/
def lookupState (m : List (String × VisualTraceState)) (k : String) :
    Option VisualTraceState :=
  (m.find? (fun p => p.1 = k)).map (fun p => p.2)

/-- Map update: a new binding shadows any previous one. -/
def setStateEntry (m : List (String × VisualTraceState)) (k : String)
    (v : VisualTraceState) : List (String × VisualTraceState) :=
  (k, v) :: m

/-- The key of the attempt this service instance is bound to. -/
def key (s : VisualTraceService) : String :=
  stateKey s.testInfo.testId s.retryIndex

/-- getState: get or create (lazily, as the empty record) the state for
the current attempt (service.ts lines 35-46). -/
def getState (s : VisualTraceService) : VisualTraceState :=
  (lookupState s.states s.key).getD { screenshotCount := 0, dedupeHashes := [] }

/-- Write back the state record of the current attempt. -/
def putState (s : VisualTraceService) (v : VisualTraceState) :
    VisualTraceService :=
  { s with states := setStateEntry s.states s.key v }

/-- isTestFailing: the status is present and differs from passed, or at
least one error is recorded (service.ts lines 133-147). -/
def isTestFailing (ti : TestInfo) : Bool :=
  (match ti.status with
   | some st => st ≠ "passed"
   | none => false)
  || ti.errors.length > 0

/-- checkConfigMode: decide from the engine configuration alone
(service.ts lines 115-128). -/
def checkConfigMode (s : VisualTraceService) (stepFailed : Bool) : Bool :=
  if s.config.enableScreenshots = .bool true
      ∨ s.config.enableScreenshots = .on then
    true
  else if s.config.enableScreenshots = .retainOnFailure then
    stepFailed || isTestFailing s.testInfo
  else
    false

/-- The switch over the resolved ambient trace mode string
(service.ts lines 85-109). -/
def switchTraceMode (s : VisualTraceService) (m : String)
    (stepFailed : Bool) : Bool :=
  if m = "on" then true
  else if m = "retain-on-failure" then
    stepFailed || isTestFailing s.testInfo || decide (s.retryIndex > 0)
  else if m = "on-first-retry" then decide (s.retryIndex = 1)
  else if m = "on-all-retries" then decide (s.retryIndex > 0)
  else if m = "retry-with-trace" then decide (s.retryIndex > 0)
  else if m = "off" then false
  else checkConfigMode s stepFailed

/-- shouldCaptureScreenshot (service.ts lines 51-110).  An empty mode
string is falsy in JavaScript, so both the absent setting and the empty
string fall back to checkConfigMode; an object setting with a truthy
mode first honours screenshots = false, then switches on the mode. -/
def shouldCaptureScreenshot (s : VisualTraceService)
    (stepFailed : Bool) : Bool :=
  if s.config.enableScreenshots = .bool false
      ∨ s.config.enableScreenshots = .off then
    false
  else
    match s.testInfo.trace with
    | .notSet => checkConfigMode s stepFailed
    | .str m =>
        if m = "" then checkConfigMode s stepFailed
        else switchTraceMode s m stepFailed
    | .obj mode screenshots =>
        match mode with
        | some m =>
            if m = "" then checkConfigMode s stepFailed
            else if screenshots = some false then false
            else switchTraceMode s m stepFailed
        | none => checkConfigMode s stepFailed

end VisualTraceService

/-- Decision table written from the specification text, for an ambient
trace setting that is absent (none) or a plain mode string: used to
compare shouldCaptureScreenshot against the spec, claim C1. -/
def shouldCaptureSpecTable (cfg : VisualTraceConfig) (ti : TestInfo)
    (retry : Nat) (stepFailed : Bool) (ambient : Option String) : Bool :=
  if cfg.enableScreenshots = .bool false ∨ cfg.enableScreenshots = .off then
    false
  else
    let failing :=
      (match ti.status with
       | some st => st ≠ "passed"
       | none => false) || decide (ti.errors.length > 0)
    let fallback :=
      if cfg.enableScreenshots = .bool true ∨ cfg.enableScreenshots = .on then
        true
      else if cfg.enableScreenshots = .retainOnFailure then
        stepFailed || failing
      else false
    match ambient with
    | none => fallback
    | some m =>
        if m = "on" then true
        else if m = "retain-on-failure" then
          stepFailed || failing || decide (retry > 0)
        else if m = "on-first-retry" then decide (retry = 1)
        else if m = "on-all-retries" then decide (retry > 0)
        else if m = "retry-with-trace" then decide (retry > 0)
        else if m = "off" then false
        else fallback

/-- Convert an optional ambient mode string into the TraceSetting it
denotes. -/
def ambientToTrace (ambient : Option String) : TraceSetting :=
  match ambient with
  | none => .notSet
  | some m => .str m

/-- C1: shouldCaptureScreenshot agrees with the specified decision
table for every engine configuration, ambient trace mode (absent or any
string), test status, error list, retry index and stepFailed flag. -/
theorem C1_shouldCapture_matches_decision_table
    (states : List (String × VisualTraceState)) (cfg : VisualTraceConfig)
    (ti : TestInfo) (retry : Nat) (stepFailed : Bool)
    (ambient : Option String) :
    VisualTraceService.shouldCaptureScreenshot
      { states := states, testInfo := { ti with trace := ambientToTrace ambient },
        retryIndex := retry, config := cfg } stepFailed
      = shouldCaptureSpecTable cfg ti retry stepFailed ambient := by
  by_cases hOff : cfg.enableScreenshots = .bool false
      ∨ cfg.enableScreenshots = .off
  · cases ambient <;>
      simp [VisualTraceService.shouldCaptureScreenshot,
        shouldCaptureSpecTable, ambientToTrace, hOff]
  · cases ambient with
    | none =>
        simp [VisualTraceService.shouldCaptureScreenshot,
          shouldCaptureSpecTable, ambientToTrace, hOff,
          VisualTraceService.checkConfigMode,
          VisualTraceService.isTestFailing]
    | some m =>
        simp only [VisualTraceService.shouldCaptureScreenshot,
          shouldCaptureSpecTable, ambientToTrace, hOff,
          VisualTraceService.switchTraceMode,
          VisualTraceService.checkConfigMode,
          VisualTraceService.isTestFailing, if_false, ite_false]
        by_cases h0 : m = "" <;>
          by_cases h1 : m = "on" <;>
            by_cases h2 : m = "retain-on-failure" <;>
              by_cases h3 : m = "on-first-retry" <;>
                by_cases h4 : m = "on-all-retries" <;>
                  by_cases h5 : m = "retry-with-trace" <;>
                    by_cases h6 : m = "off" <;>
                      simp_all

/-- Result of awaiting the supplied takeScreenshot callback: the fetched
byte buffer, or a thrown error. -/
inductive FetchResult where
  | ok (data : List Nat)
  | err (msg : String)
deriving DecidableEq, Repr

/-- An attachment handed to the testInfo.attach sink. -/
structure Attachment where
  filename : String
  body : List Nat
deriving DecidableEq, Repr

/-- Replace every character outside a-z, A-Z, 0-9 by an underscore
(service.ts line 220). -/
def sanitizeLabel (s : String) : String :=
  s.map (fun c =>
    if (c ≥ 'a' ∧ c ≤ 'z') ∨ (c ≥ 'A' ∧ c ≤ 'Z') ∨ (c ≥ '0' ∧ c ≤ '9')
    then c else '_')

namespace VisualTraceService

/-- hasReachedLimit (service.ts lines 159-165): note the JavaScript
truthiness guard, a maxScreenshots of 0 is falsy, so the limit is then
never considered reached. -/
def hasReachedLimit (s : VisualTraceService) : Bool :=
  decide (s.config.maxScreenshots ≠ 0)
    && decide ((getState s).screenshotCount ≥ s.config.maxScreenshots)

/-- isDuplicate (service.ts lines 170-184): with dedupe off, never a
duplicate and no hash is recorded; otherwise a seen hash is a duplicate,
and an unseen hash is recorded before returning false. -/
def isDuplicateStep (s : VisualTraceService) (hashFn : List Nat → String)
    (data : List Nat) : Bool × VisualTraceService :=
  if ¬ s.config.dedupe then (false, s)
  else
    let st := getState s
    let h := hashFn data
    if h ∈ st.dedupeHashes then (true, s)
    else (false, putState s { st with dedupeHashes := h :: st.dedupeHashes })

/-- The try block of captureScreenshot (service.ts lines 204-228).  A
thrown error carries the service state at the throw point, because the
state mutations already performed are kept: the error branch of the
fetch throws before any mutation, the error branch of the attach sink
throws after the count increment and hash recording. -/
def captureBody (s : VisualTraceService) (hashFn : List Nat → String)
    (fetch : FetchResult) (stepTitle : Option String) (now : Nat)
    (attachOk : Bool) :
    Except (VisualTraceService × String)
      (VisualTraceService × Option Attachment) :=
  match fetch with
  | .err e => .error (s, e)
  | .ok data =>
      match isDuplicateStep s hashFn data with
      | (true, s1) => .ok (s1, none)
      | (false, s1) =>
          let st := getState s1
          let s2 := putState s1 { st with screenshotCount := st.screenshotCount + 1 }
          let stepSuffix :=
            match stepTitle with
            | some t => "-" ++ sanitizeLabel t
            | none => ""
          let filename := "screenshot-" ++ Nat.repr now ++ stepSuffix ++ ".png"
          if attachOk then .ok (s2, some { filename := filename, body := data })
          else .error (s2, "attach failed")

end VisualTraceService

/-- The observable outcome of one captureScreenshot call: the service
after the call, the attachment handed to the sink if any, and whether a
warning was logged (the catch branch ran). -/
structure CaptureResult where
  service : VisualTraceService
  attachment : Option Attachment
  warned : Bool
deriving DecidableEq, Repr

namespace VisualTraceService

/-- captureScreenshot (service.ts lines 189-233): the shouldCapture and
limit guards return early; the try block runs the body; any thrown
error is caught, logged as a warning, and not propagated, keeping the
state reached at the throw point. -/
def captureScreenshot (s : VisualTraceService) (hashFn : List Nat → String)
    (fetch : FetchResult) (stepTitle : Option String) (stepFailed : Bool)
    (now : Nat) (attachOk : Bool) : CaptureResult :=
  if ¬ shouldCaptureScreenshot s stepFailed then
    { service := s, attachment := none, warned := false }
  else if hasReachedLimit s then
    { service := s, attachment := none, warned := false }
  else
    match captureBody s hashFn fetch stepTitle now attachOk with
    | .ok (s1, att) => { service := s1, attachment := att, warned := false }
    | .error (s1, _) => { service := s1, attachment := none, warned := true }

/-- resetState (service.ts lines 238-241): delete the current attempt
key from the states map. -/
def resetState (s : VisualTraceService) : VisualTraceService :=
  { s with states := s.states.filter (fun p => decide (p.1 ≠ s.key)) }

/-- getScreenshotCount (service.ts lines 246-249). -/
def getScreenshotCount (s : VisualTraceService) : Nat :=
  (getState s).screenshotCount

/-- One capture call description: fetch outcome, step title, stepFailed
flag, timestamp, and whether the attach sink succeeds. -/
structure CaptureCall where
  fetch : FetchResult
  stepTitle : Option String
  stepFailed : Bool
  now : Nat
  attachOk : Bool
deriving DecidableEq, Repr

/-- Run a sequence of captureScreenshot calls, collecting every
attachment handed to the sink. -/
def runCaptures (s : VisualTraceService) (hashFn : List Nat → String) :
    List CaptureCall → VisualTraceService × List Attachment
  | [] => (s, [])
  | c :: cs =>
      let r := captureScreenshot s hashFn c.fetch c.stepTitle c.stepFailed
        c.now c.attachOk
      let (s1, atts) := runCaptures r.service hashFn cs
      (s1, r.attachment.toList ++ atts)

end VisualTraceService

section ScratchChecks

/-- A concrete TestInfo whose ambient trace mode is on, used for
evaluation checks. -/
def tiOn : TestInfo :=
  { testId := "t1", title := "test one", retry := 0, status := none,
    errors := [], errorMsg := none, trace := .str "on",
    visualTraceCfg := none }

/-- A concrete service: trace on, quota 2, dedupe off. -/
def svcQuota2 : VisualTraceService :=
  { states := [], testInfo := tiOn, retryIndex := 0,
    config := { enableScreenshots := .retainOnFailure, maxScreenshots := 2,
                dedupe := false } }

example :
    (VisualTraceService.runCaptures svcQuota2 (fun b => toString b)
      [ { fetch := .ok [1], stepTitle := none, stepFailed := false,
          now := 0, attachOk := true },
        { fetch := .ok [2], stepTitle := none, stepFailed := false,
          now := 1, attachOk := true },
        { fetch := .ok [3], stepTitle := none, stepFailed := false,
          now := 2, attachOk := true } ]).2.length = 2 := by decide

example :
    VisualTraceService.getScreenshotCount
      (VisualTraceService.runCaptures svcQuota2 (fun b => toString b)
        [ { fetch := .ok [1], stepTitle := none, stepFailed := false,
            now := 0, attachOk := true },
          { fetch := .ok [2], stepTitle := none, stepFailed := false,
            now := 1, attachOk := true },
          { fetch := .ok [3], stepTitle := none, stepFailed := false,
            now := 2, attachOk := true } ]).1 = 2 := by decide

end ScratchChecks

/-- A default concrete hash function standing in for the external
SHA-256 implementation in concrete evaluations. -/
def hashFnDefault : List Nat → String := fun b => toString b

/-- A service whose configured limit is 0: the JavaScript truthiness
guard in hasReachedLimit then disables the limit entirely. -/
def svcMax0 : VisualTraceService :=
  { states := [], testInfo := tiOn, retryIndex := 0,
    config := { enableScreenshots := .retainOnFailure, maxScreenshots := 0,
                dedupe := false } }

/-- A service with limit 2 whose attempt state already records 2
captures. -/
def svcAtLimit : VisualTraceService :=
  { states := [(VisualTraceService.stateKey "t1" 0,
      { screenshotCount := 2, dedupeHashes := [] })],
    testInfo := tiOn, retryIndex := 0,
    config := { enableScreenshots := .retainOnFailure, maxScreenshots := 2,
                dedupe := false } }

/-- The three sequential capture calls of the quota scenario, with
pairwise distinct buffers. -/
def quotaCalls : List VisualTraceService.CaptureCall :=
  [ { fetch := .ok [1], stepTitle := none, stepFailed := false,
      now := 0, attachOk := true },
    { fetch := .ok [2], stepTitle := none, stepFailed := false,
      now := 1, attachOk := true },
    { fetch := .ok [3], stepTitle := none, stepFailed := false,
      now := 2, attachOk := true } ]

/-- C2, counterexample: with maxScreenshots = 0 (a non-negative
integer) the attempt count 0 has already reached the limit, yet
captureScreenshot does not return early: it attaches a screenshot and
increments the count, because the truthiness guard in hasReachedLimit
treats 0 as no limit. -/
theorem C2_counterexample :
    (VisualTraceService.getState svcMax0).screenshotCount
        ≥ svcMax0.config.maxScreenshots
    ∧ (VisualTraceService.captureScreenshot svcMax0 hashFnDefault
        (.ok [1]) none false 0 true).attachment ≠ none
    ∧ VisualTraceService.getScreenshotCount
        (VisualTraceService.captureScreenshot svcMax0 hashFnDefault
          (.ok [1]) none false 0 true).service = 1 := by
  decide

/-- C2 amended: for every positive configured maxScreenshots (the value
0 disables the limit because it is falsy in JavaScript), whenever the
attempt count has already reached the limit, captureScreenshot returns
early: the result is independent of the fetch callback, no state
changes, no attachment is produced and no warning is logged; moreover
the concrete quota scenario holds: limit 2, always-true capture policy,
three sequential calls with distinct buffers yield exactly 2
attachments and a final count of 2. -/
theorem C2_quota_early_return (s : VisualTraceService)
    (hashFn : List Nat → String)
    (h0 : s.config.maxScreenshots ≠ 0)
    (h1 : (VisualTraceService.getState s).screenshotCount
        ≥ s.config.maxScreenshots) :
    (∀ fetch stepTitle stepFailed now attachOk,
      VisualTraceService.captureScreenshot s hashFn fetch stepTitle
          stepFailed now attachOk
        = { service := s, attachment := none, warned := false })
    ∧ (VisualTraceService.runCaptures svcQuota2 hashFnDefault
        quotaCalls).2.length = 2
    ∧ VisualTraceService.getScreenshotCount
        (VisualTraceService.runCaptures svcQuota2 hashFnDefault
          quotaCalls).1 = 2 := by
  refine ⟨?_, by decide, by decide⟩
  intro fetch stepTitle stepFailed now attachOk
  unfold VisualTraceService.captureScreenshot
  by_cases hs : VisualTraceService.shouldCaptureScreenshot s stepFailed
  · have hlim : VisualTraceService.hasReachedLimit s = true := by
      simp [VisualTraceService.hasReachedLimit, h0, h1]
    simp [hs, hlim]
  · simp [hs]

/-- C2 witness: the amended theorem applied to a concrete service that
already reached its limit of 2. -/
theorem C2_quota_early_return_witness :
    svcAtLimit.config.maxScreenshots ≠ 0
    ∧ (VisualTraceService.getState svcAtLimit).screenshotCount
        ≥ svcAtLimit.config.maxScreenshots
    ∧ VisualTraceService.captureScreenshot svcAtLimit hashFnDefault
        (.ok [9]) none false 5 true
        = { service := svcAtLimit, attachment := none, warned := false } :=
  ⟨by decide, by decide,
    (C2_quota_early_return svcAtLimit hashFnDefault (by decide)
      (by decide)).1 (.ok [9]) none false 5 true⟩

namespace VisualTraceService

@[simp]
theorem key_putState (s : VisualTraceService) (v : VisualTraceState) :
    (putState s v).key = s.key := rfl

@[simp]
theorem config_putState (s : VisualTraceService) (v : VisualTraceState) :
    (putState s v).config = s.config := rfl

@[simp]
theorem testInfo_putState (s : VisualTraceService) (v : VisualTraceState) :
    (putState s v).testInfo = s.testInfo := rfl

@[simp]
theorem retryIndex_putState (s : VisualTraceService) (v : VisualTraceState) :
    (putState s v).retryIndex = s.retryIndex := rfl

@[simp]
theorem getState_putState (s : VisualTraceService) (v : VisualTraceState) :
    getState (putState s v) = v := by
  simp [getState, putState, lookupState, setStateEntry, key, List.find?]

@[simp]
theorem shouldCapture_putState (s : VisualTraceService)
    (v : VisualTraceState) (stepFailed : Bool) :
    shouldCaptureScreenshot (putState s v) stepFailed
      = shouldCaptureScreenshot s stepFailed := rfl

@[simp]
theorem getScreenshotCount_putState (s : VisualTraceService)
    (v : VisualTraceState) :
    getScreenshotCount (putState s v) = v.screenshotCount := by
  simp [getScreenshotCount]

theorem isDuplicateStep_fresh (s : VisualTraceService)
    (hashFn : List Nat → String) (data : List Nat)
    (hded : s.config.dedupe = true)
    (hnew : hashFn data ∉ (getState s).dedupeHashes) :
    isDuplicateStep s hashFn data
      = (false, putState s { getState s with
          dedupeHashes := hashFn data :: (getState s).dedupeHashes }) := by
  simp [isDuplicateStep, hded, hnew]

theorem isDuplicateStep_seen (s : VisualTraceService)
    (hashFn : List Nat → String) (data : List Nat)
    (hded : s.config.dedupe = true)
    (hseen : hashFn data ∈ (getState s).dedupeHashes) :
    isDuplicateStep s hashFn data = (true, s) := by
  simp [isDuplicateStep, hded, hseen]

theorem isDuplicateStep_off (s : VisualTraceService)
    (hashFn : List Nat → String) (data : List Nat)
    (hded : s.config.dedupe = false) :
    isDuplicateStep s hashFn data = (false, s) := by
  simp [isDuplicateStep, hded]

/-- The service state after one fresh (non-duplicate, policy-allowed)
capture: the hash is recorded, then the count is incremented. -/
def afterFreshCapture (s : VisualTraceService)
    (hashFn : List Nat → String) (data : List Nat) : VisualTraceService :=
  putState
    (putState s { getState s with
      dedupeHashes := hashFn data :: (getState s).dedupeHashes })
    { screenshotCount := (getState s).screenshotCount + 1,
      dedupeHashes := hashFn data :: (getState s).dedupeHashes }

/-- Evaluation of captureScreenshot on a fresh buffer with dedupe
enabled: the state advances to afterFreshCapture, and the attachment is
produced exactly when the sink does not throw. -/
theorem captureScreenshot_fresh (s : VisualTraceService)
    (hashFn : List Nat → String) (data : List Nat)
    (stepTitle : Option String) (stepFailed : Bool) (now : Nat)
    (attachOk : Bool)
    (hcap : shouldCaptureScreenshot s stepFailed = true)
    (hlim : hasReachedLimit s = false)
    (hded : s.config.dedupe = true)
    (hnew : hashFn data ∉ (getState s).dedupeHashes) :
    captureScreenshot s hashFn (.ok data) stepTitle stepFailed now attachOk
      = if attachOk then
          { service := afterFreshCapture s hashFn data,
            attachment := some
              { filename := "screenshot-" ++ Nat.repr now
                  ++ (match stepTitle with
                      | some t => "-" ++ sanitizeLabel t
                      | none => "") ++ ".png",
                body := data },
            warned := false }
        else
          { service := afterFreshCapture s hashFn data,
            attachment := none, warned := true } := by
  simp only [captureScreenshot, hcap, hlim, Bool.not_true, Bool.false_eq_true,
    if_false, ite_false, Bool.true_eq_false, captureBody,
    isDuplicateStep_fresh s hashFn data hded hnew, afterFreshCapture,
    getState_putState]
  cases attachOk <;> simp

end VisualTraceService

namespace VisualTraceService

@[simp]
theorem shouldCapture_afterFresh (s : VisualTraceService)
    (hashFn : List Nat → String) (data : List Nat) (stepFailed : Bool) :
    shouldCaptureScreenshot (afterFreshCapture s hashFn data) stepFailed
      = shouldCaptureScreenshot s stepFailed := by
  simp [afterFreshCapture]

@[simp]
theorem config_afterFresh (s : VisualTraceService)
    (hashFn : List Nat → String) (data : List Nat) :
    (afterFreshCapture s hashFn data).config = s.config := by
  simp [afterFreshCapture]

@[simp]
theorem getState_afterFresh (s : VisualTraceService)
    (hashFn : List Nat → String) (data : List Nat) :
    getState (afterFreshCapture s hashFn data)
      = { screenshotCount := (getState s).screenshotCount + 1,
          dedupeHashes := hashFn data :: (getState s).dedupeHashes } := by
  simp [afterFreshCapture]

/-- A call that is blocked by the quota guard leaves everything
untouched, whatever the other inputs are. -/
theorem captureScreenshot_limitReached (s : VisualTraceService)
    (hashFn : List Nat → String) (fetch : FetchResult)
    (stepTitle : Option String) (stepFailed : Bool) (now : Nat)
    (attachOk : Bool)
    (hlim : hasReachedLimit s = true) :
    captureScreenshot s hashFn fetch stepTitle stepFailed now attachOk
      = { service := s, attachment := none, warned := false } := by
  by_cases hcap : shouldCaptureScreenshot s stepFailed <;>
    simp [captureScreenshot, hcap, hlim]

/-- A duplicate buffer is skipped without touching the state. -/
theorem captureScreenshot_dup (s : VisualTraceService)
    (hashFn : List Nat → String) (data : List Nat)
    (stepTitle : Option String) (stepFailed : Bool) (now : Nat)
    (attachOk : Bool)
    (hcap : shouldCaptureScreenshot s stepFailed = true)
    (hlim : hasReachedLimit s = false)
    (hded : s.config.dedupe = true)
    (hseen : hashFn data ∈ (getState s).dedupeHashes) :
    captureScreenshot s hashFn (.ok data) stepTitle stepFailed now attachOk
      = { service := s, attachment := none, warned := false } := by
  simp only [captureScreenshot, hcap, hlim, captureBody,
    isDuplicateStep_seen s hashFn data hded hseen]
  simp

/-- With dedupe disabled, a policy-allowed capture under quota attaches
and only increments the count. -/
theorem captureScreenshot_noDedupe (s : VisualTraceService)
    (hashFn : List Nat → String) (data : List Nat)
    (stepTitle : Option String) (stepFailed : Bool) (now : Nat)
    (hcap : shouldCaptureScreenshot s stepFailed = true)
    (hlim : hasReachedLimit s = false)
    (hded : s.config.dedupe = false) :
    captureScreenshot s hashFn (.ok data) stepTitle stepFailed now true
      = { service := putState s
            { screenshotCount := (getState s).screenshotCount + 1,
              dedupeHashes := (getState s).dedupeHashes },
          attachment := some
            { filename := "screenshot-" ++ Nat.repr now
                ++ (match stepTitle with
                    | some t => "-" ++ sanitizeLabel t
                    | none => "") ++ ".png",
              body := data },
          warned := false } := by
  simp only [captureScreenshot, hcap, hlim, captureBody,
    isDuplicateStep_off s hashFn data hded]
  simp

end VisualTraceService

open VisualTraceService in
/-- C3: with dedupe on, two captures of byte-identical buffers produce
exactly one attachment and the duplicate call is a complete no-op on
the state; with dedupe off the same two calls produce two attachments;
and a non-duplicate capture records its hash and increments the count
by exactly one. -/
theorem C3_dedupe_behaviour (s : VisualTraceService)
    (hashFn : List Nat → String) (data : List Nat)
    (stepTitle : Option String) (stepFailed : Bool) (n1 n2 : Nat)
    (hcap : shouldCaptureScreenshot s stepFailed = true)
    (hlim : hasReachedLimit s = false)
    (hnew : hashFn data ∉ (getState s).dedupeHashes) :
    (s.config.dedupe = true →
      (captureScreenshot s hashFn (.ok data) stepTitle stepFailed n1
        true).attachment.isSome = true
      ∧ captureScreenshot
          (captureScreenshot s hashFn (.ok data) stepTitle stepFailed n1
            true).service hashFn (.ok data) stepTitle stepFailed n2 true
        = { service := (captureScreenshot s hashFn (.ok data) stepTitle
              stepFailed n1 true).service,
            attachment := none, warned := false }
      ∧ getScreenshotCount
          (captureScreenshot s hashFn (.ok data) stepTitle stepFailed n1
            true).service = getScreenshotCount s + 1)
    ∧ (s.config.dedupe = false →
       s.config.maxScreenshots = 0
         ∨ getScreenshotCount s + 2 ≤ s.config.maxScreenshots →
       (captureScreenshot s hashFn (.ok data) stepTitle stepFailed n1
         true).attachment.isSome = true
       ∧ (captureScreenshot
            (captureScreenshot s hashFn (.ok data) stepTitle stepFailed n1
              true).service hashFn (.ok data) stepTitle stepFailed n2
            true).attachment.isSome = true
       ∧ getScreenshotCount
           (captureScreenshot
             (captureScreenshot s hashFn (.ok data) stepTitle stepFailed n1
               true).service hashFn (.ok data) stepTitle stepFailed n2
             true).service = getScreenshotCount s + 2)
    ∧ (s.config.dedupe = true → ∀ attachOk,
        getScreenshotCount
          (captureScreenshot s hashFn (.ok data) stepTitle stepFailed n1
            attachOk).service = getScreenshotCount s + 1
        ∧ hashFn data ∈ (getState (captureScreenshot s hashFn (.ok data)
            stepTitle stepFailed n1 attachOk).service).dedupeHashes) := by
  refine ⟨?_, ?_, ?_⟩
  · intro hded
    rw [captureScreenshot_fresh s hashFn data stepTitle stepFailed n1 true
      hcap hlim hded hnew]
    simp only [if_true, ite_true]
    refine ⟨rfl, ?_, by simp [getScreenshotCount]⟩
    by_cases hl2 : hasReachedLimit (afterFreshCapture s hashFn data)
    · exact captureScreenshot_limitReached _ hashFn _ stepTitle stepFailed
        n2 true hl2
    · refine captureScreenshot_dup _ hashFn data stepTitle stepFailed n2
        true ?_ (by simpa using hl2) ?_ ?_
      · simpa using hcap
      · simpa using hded
      · simp
  · intro hded hquota
    rw [captureScreenshot_noDedupe s hashFn data stepTitle stepFailed n1
      hcap hlim hded]
    simp only
    have hl2 : hasReachedLimit (putState s
        { screenshotCount := (getState s).screenshotCount + 1,
          dedupeHashes := (getState s).dedupeHashes }) = false := by
      rcases hquota with h | h
      · simp [hasReachedLimit, h]
      · simp only [hasReachedLimit, getState_putState, config_putState]
        simp only [getScreenshotCount] at h
        simp
        omega
    rw [captureScreenshot_noDedupe _ hashFn data stepTitle stepFailed n2
      (by simpa using hcap) hl2 (by simpa using hded)]
    simp [getScreenshotCount]
  · intro hded attachOk
    rw [captureScreenshot_fresh s hashFn data stepTitle stepFailed n1
      attachOk hcap hlim hded hnew]
    cases attachOk <;> simp [getScreenshotCount]

/-- A concrete service with dedupe enabled and ambient trace mode on. -/
def svcDedupe : VisualTraceService :=
  { states := [], testInfo := tiOn, retryIndex := 0,
    config := { enableScreenshots := .retainOnFailure, maxScreenshots := 50,
                dedupe := true } }

open VisualTraceService in
/-- C3 witness: the dedupe theorem applied to a concrete fresh service
and buffer. -/
theorem C3_dedupe_behaviour_witness :
    shouldCaptureScreenshot svcDedupe false = true
    ∧ hasReachedLimit svcDedupe = false
    ∧ hashFnDefault [7] ∉ (getState svcDedupe).dedupeHashes
    ∧ ((captureScreenshot svcDedupe hashFnDefault (.ok [7]) none false 0
          true).attachment.isSome = true
       ∧ captureScreenshot
           (captureScreenshot svcDedupe hashFnDefault (.ok [7]) none false
             0 true).service hashFnDefault (.ok [7]) none false 1 true
         = { service := (captureScreenshot svcDedupe hashFnDefault
               (.ok [7]) none false 0 true).service,
             attachment := none, warned := false }
       ∧ getScreenshotCount
           (captureScreenshot svcDedupe hashFnDefault (.ok [7]) none false
             0 true).service = getScreenshotCount svcDedupe + 1) :=
  ⟨by decide, by decide, by decide,
    (C3_dedupe_behaviour svcDedupe hashFnDefault [7] none false 0 1
      (by decide) (by decide) (by decide)).1 rfl⟩

open VisualTraceService in
/-- C4: captureScreenshot never propagates an exception.  Whenever the
try block throws (which happens exactly when the fetch callback or the
attach sink throws), the error is caught: the call returns normally
with the warning flag set and the state reached at the throw point,
and no attachment is reported. -/
theorem C4_capture_never_throws (s : VisualTraceService)
    (hashFn : List Nat → String) (fetch : FetchResult)
    (stepTitle : Option String) (stepFailed : Bool) (now : Nat)
    (attachOk : Bool) :
    (∀ s1 e, shouldCaptureScreenshot s stepFailed = true →
      hasReachedLimit s = false →
      captureBody s hashFn fetch stepTitle now attachOk = .error (s1, e) →
      captureScreenshot s hashFn fetch stepTitle stepFailed now attachOk
        = { service := s1, attachment := none, warned := true })
    ∧ (∀ e, fetch = .err e →
        captureBody s hashFn fetch stepTitle now attachOk = .error (s, e))
    ∧ (∀ s1 e,
        captureBody s hashFn fetch stepTitle now attachOk = .error (s1, e) →
        (∃ msg, fetch = .err msg) ∨ attachOk = false) := by
  refine ⟨?_, ?_, ?_⟩
  · intro s1 e hcap hlim hbody
    simp [captureScreenshot, hcap, hlim, hbody]
  · intro e hfe
    subst hfe
    rfl
  · intro s1 e hbody
    cases fetch with
    | err msg => exact Or.inl ⟨msg, rfl⟩
    | ok data =>
        rcases hd : isDuplicateStep s hashFn data with ⟨b, s2⟩
        cases b
        · cases attachOk
          · exact Or.inr rfl
          · simp [captureBody, hd] at hbody
        · simp [captureBody, hd] at hbody

open VisualTraceService in
/-- C4 witness: a throwing fetch on a concrete service is caught and
reported as a warning. -/
theorem C4_capture_never_throws_witness :
    shouldCaptureScreenshot svcDedupe false = true
    ∧ hasReachedLimit svcDedupe = false
    ∧ captureBody svcDedupe hashFnDefault (.err "boom") none 0 true
        = .error (svcDedupe, "boom")
    ∧ captureScreenshot svcDedupe hashFnDefault (.err "boom") none false 0
        true = { service := svcDedupe, attachment := none, warned := true } :=
  ⟨by decide, by decide, rfl,
    (C4_capture_never_throws svcDedupe hashFnDefault (.err "boom") none
      false 0 true).1 svcDedupe "boom" (by decide) (by decide) rfl⟩

open VisualTraceService in
/-- C10: capture is not atomic on attachment failure.  With dedupe
enabled, when a policy-allowed, under-quota capture of a fresh buffer
fetches successfully but the attach sink throws, the count increment
and the recorded hash are kept, no attachment is reported, the error is
swallowed as a warning, and a later byte-identical capture in the same
attempt is suppressed. -/
theorem C10_attach_failure_keeps_state (s : VisualTraceService)
    (hashFn : List Nat → String) (data : List Nat)
    (stepTitle : Option String) (stepFailed : Bool) (n1 n2 : Nat)
    (attachOk2 : Bool)
    (hded : s.config.dedupe = true)
    (hcap : shouldCaptureScreenshot s stepFailed = true)
    (hlim : hasReachedLimit s = false)
    (hnew : hashFn data ∉ (getState s).dedupeHashes) :
    getScreenshotCount
      (captureScreenshot s hashFn (.ok data) stepTitle stepFailed n1
        false).service = getScreenshotCount s + 1
    ∧ hashFn data ∈ (getState (captureScreenshot s hashFn (.ok data)
        stepTitle stepFailed n1 false).service).dedupeHashes
    ∧ (captureScreenshot s hashFn (.ok data) stepTitle stepFailed n1
        false).attachment = none
    ∧ (captureScreenshot s hashFn (.ok data) stepTitle stepFailed n1
        false).warned = true
    ∧ captureScreenshot
        (captureScreenshot s hashFn (.ok data) stepTitle stepFailed n1
          false).service hashFn (.ok data) stepTitle stepFailed n2 attachOk2
        = { service := (captureScreenshot s hashFn (.ok data) stepTitle
              stepFailed n1 false).service,
            attachment := none, warned := false } := by
  rw [captureScreenshot_fresh s hashFn data stepTitle stepFailed n1 false
    hcap hlim hded hnew]
  simp only [Bool.false_eq_true, if_false, ite_false]
  refine ⟨by simp [getScreenshotCount], by simp, trivial, trivial, ?_⟩
  by_cases hl2 : hasReachedLimit (afterFreshCapture s hashFn data)
  · exact captureScreenshot_limitReached _ hashFn _ stepTitle stepFailed
      n2 attachOk2 hl2
  · refine captureScreenshot_dup _ hashFn data stepTitle stepFailed n2
      attachOk2 ?_ (by simpa using hl2) ?_ ?_
    · simpa using hcap
    · simpa using hded
    · simp

open VisualTraceService in
/-- C10 witness: the non-atomicity theorem applied to a concrete
service and buffer with a throwing attach sink. -/
theorem C10_attach_failure_keeps_state_witness :
    svcDedupe.config.dedupe = true
    ∧ shouldCaptureScreenshot svcDedupe false = true
    ∧ hasReachedLimit svcDedupe = false
    ∧ hashFnDefault [3] ∉ (getState svcDedupe).dedupeHashes
    ∧ getScreenshotCount
        (captureScreenshot svcDedupe hashFnDefault (.ok [3]) none false 0
          false).service = getScreenshotCount svcDedupe + 1 :=
  ⟨rfl, by decide, by decide, by decide,
    (C10_attach_failure_keeps_state svcDedupe hashFnDefault [3] none false
      0 1 true rfl (by decide) (by decide) (by decide)).1⟩

section KeyInjectivity

theorem digitChar_ne_hash (m : Nat) : Nat.digitChar m ≠ '#' := by
  rcases Nat.lt_or_ge m 16 with h16 | h16
  · interval_cases m <;> decide
  · have h0 : m ≠ 0 := by omega
    have h1 : m ≠ 1 := by omega
    have h2 : m ≠ 2 := by omega
    have h3 : m ≠ 3 := by omega
    have h4 : m ≠ 4 := by omega
    have h5 : m ≠ 5 := by omega
    have h6 : m ≠ 6 := by omega
    have h7 : m ≠ 7 := by omega
    have h8 : m ≠ 8 := by omega
    have h9 : m ≠ 9 := by omega
    have h10 : m ≠ 10 := by omega
    have h11 : m ≠ 11 := by omega
    have h12 : m ≠ 12 := by omega
    have h13 : m ≠ 13 := by omega
    have h14 : m ≠ 14 := by omega
    have h15 : m ≠ 15 := by omega
    simp [Nat.digitChar, h0, h1, h2, h3, h4, h5, h6, h7, h8, h9, h10,
      h11, h12, h13, h14, h15]

theorem toDigitsCore_ne_hash :
    ∀ (fuel n : Nat) (ds : List Char), (∀ c ∈ ds, c ≠ '#') →
      ∀ c ∈ Nat.toDigitsCore 10 fuel n ds, c ≠ '#'
  | 0, _, _, hds => by
      intro c hc
      exact hds c hc
  | fuel + 1, n, ds, hds => by
      unfold Nat.toDigitsCore
      dsimp only
      split
      · intro c hc
        rcases List.mem_cons.mp hc with h | h
        · subst h; exact digitChar_ne_hash _
        · exact hds c h
      · refine toDigitsCore_ne_hash fuel (n / 10) _ ?_
        intro c hc
        rcases List.mem_cons.mp hc with h | h
        · subst h; exact digitChar_ne_hash _
        · exact hds c h

theorem repr_ne_hash (n : Nat) : ∀ c ∈ (Nat.repr n).data, c ≠ '#' := by
  intro c hc
  refine toDigitsCore_ne_hash (n + 1) n [] (by simp) c ?_
  simpa [Nat.repr, Nat.toDigits, List.asString] using hc

/-- Numeric value of a digit character. -/
def digitVal (c : Char) : Nat := c.toNat - 48

/-- Decimal decoding of a digit list, most significant first. -/
def decodeDigits (l : List Char) : Nat :=
  l.foldl (fun a c => 10 * a + digitVal c) 0

/-- Number of decimal digits. -/
def dlen (n : Nat) : Nat :=
  if n < 10 then 1 else dlen (n / 10) + 1
decreasing_by
  exact Nat.div_lt_self (by omega) (by omega)

theorem digitVal_digitChar : ∀ m, m < 10 → digitVal (Nat.digitChar m) = m := by
  decide

theorem foldl_toDigitsCore :
    ∀ (fuel n a : Nat) (ds : List Char), n < fuel →
      (Nat.toDigitsCore 10 fuel n ds).foldl
          (fun x c => 10 * x + digitVal c) a
        = ds.foldl (fun x c => 10 * x + digitVal c) (a * 10 ^ dlen n + n)
  | 0, n, a, ds, h => by omega
  | fuel + 1, n, a, ds, h => by
      unfold Nat.toDigitsCore
      dsimp only
      split
      · rename_i hdiv
        have hn : n < 10 := by omega
        have hd : dlen n = 1 := by unfold dlen; simp [hn]
        simp only [List.foldl_cons, hd, pow_one]
        rw [digitVal_digitChar (n % 10) (by omega)]
        congr 1
        omega
      · rename_i hdiv
        have hn : ¬ n < 10 := by omega
        have hfuel : n / 10 < fuel := by omega
        rw [foldl_toDigitsCore fuel (n / 10) a (_ :: ds) hfuel]
        simp only [List.foldl_cons]
        rw [digitVal_digitChar (n % 10) (by omega)]
        have hd : dlen n = dlen (n / 10) + 1 := by
          conv_lhs => unfold dlen
          simp [hn]
        rw [hd, pow_succ]
        congr 1
        have : 10 * (n / 10) + n % 10 = n := by omega
        ring_nf
        omega

theorem decodeDigits_toDigits (n : Nat) :
    decodeDigits (Nat.toDigits 10 n) = n := by
  unfold decodeDigits Nat.toDigits
  rw [foldl_toDigitsCore (n + 1) n 0 [] (by omega)]
  simp

theorem natRepr_injective {m n : Nat} (h : Nat.repr m = Nat.repr n) :
    m = n := by
  have hdata : Nat.toDigits 10 m = Nat.toDigits 10 n := by
    have := congrArg String.data h
    simpa [Nat.repr, List.asString] using this
  have := congrArg decodeDigits hdata
  simpa [decodeDigits_toDigits] using this

theorem first_occ_split {α : Type} (a : α) :
    ∀ (l1 l2 r1 r2 : List α), a ∉ l1 → a ∉ l2 →
      l1 ++ a :: r1 = l2 ++ a :: r2 → l1 = l2 ∧ r1 = r2 := by
  intro l1
  induction l1 with
  | nil =>
      intro l2 r1 r2 h1 h2 h
      cases l2 with
      | nil => simpa using h
      | cons b l2 =>
          simp only [List.nil_append, List.cons_append, List.cons.injEq] at h
          exact absurd (h.1 ▸ List.mem_cons_self b l2) h2
  | cons b l1 ih =>
      intro l2 r1 r2 h1 h2 h
      cases l2 with
      | nil =>
          simp only [List.nil_append, List.cons_append, List.cons.injEq] at h
          exact absurd (h.1.symm ▸ List.mem_cons_self b l1) h1
      | cons c l2 =>
          simp only [List.cons_append, List.cons.injEq] at h
          obtain ⟨hbc, h'⟩ := h
          obtain ⟨hl, hr⟩ := ih l2 r1 r2
            (fun hm => h1 (List.mem_cons_of_mem b hm))
            (fun hm => h2 (List.mem_cons_of_mem c hm)) h'
          exact ⟨by rw [hbc, hl], hr⟩

theorem stateKey_injective {t1 t2 : String} {r1 r2 : Nat}
    (h : VisualTraceService.stateKey t1 r1
        = VisualTraceService.stateKey t2 r2) :
    t1 = t2 ∧ r1 = r2 := by
  have hdata : t1.data ++ '#' :: (Nat.repr r1).data
      = t2.data ++ '#' :: (Nat.repr r2).data := by
    have := congrArg String.data h
    simpa [VisualTraceService.stateKey, String.data_append] using this
  have hrev : (Nat.repr r1).data.reverse ++ '#' :: t1.data.reverse
      = (Nat.repr r2).data.reverse ++ '#' :: t2.data.reverse := by
    have := congrArg List.reverse hdata
    simpa [List.reverse_append] using this
  have h1 : '#' ∉ (Nat.repr r1).data.reverse := by
    intro hm
    exact repr_ne_hash r1 '#' (List.mem_reverse.mp hm) rfl
  have h2 : '#' ∉ (Nat.repr r2).data.reverse := by
    intro hm
    exact repr_ne_hash r2 '#' (List.mem_reverse.mp hm) rfl
  obtain ⟨hd, ht⟩ := first_occ_split '#' _ _ _ _ h1 h2 hrev
  have hrepr : Nat.repr r1 = Nat.repr r2 := by
    apply String.ext
    have := congrArg List.reverse hd
    simpa using this
  have htstr : t1 = t2 := by
    apply String.ext
    have := congrArg List.reverse ht
    simpa using this
  exact ⟨htstr, natRepr_injective hrepr⟩

end KeyInjectivity

namespace VisualTraceService

theorem lookupState_setStateEntry_ne
    (m : List (String × VisualTraceState)) (kd k : String)
    (v : VisualTraceState) (hk : k ≠ kd) :
    lookupState (setStateEntry m kd v) k = lookupState m k := by
  have hdk : kd ≠ k := Ne.symm hk
  simp [lookupState, setStateEntry, List.find?_cons, hdk]

theorem lookupState_putState_ne (s : VisualTraceService)
    (v : VisualTraceState) (k : String) (hk : k ≠ s.key) :
    lookupState (putState s v).states k = lookupState s.states k :=
  lookupState_setStateEntry_ne s.states s.key k v hk

theorem lookupState_filter_ne (m : List (String × VisualTraceState))
    (kd k : String) (hk : k ≠ kd) :
    lookupState (m.filter (fun p => decide (p.1 ≠ kd))) k
      = lookupState m k := by
  unfold lookupState
  congr 1
  induction m with
  | nil => rfl
  | cons p m ih =>
      by_cases hp : p.1 = kd
      · have hd1 : decide (p.1 ≠ kd) = false := by simp [hp]
        have hd2 : decide (p.1 = k) = false := by
          simp [hp]
          exact Ne.symm hk
        rw [List.filter_cons, hd1, List.find?_cons, hd2]
        simpa using ih
      · have hd1 : decide (p.1 ≠ kd) = true := by simp [hp]
        by_cases hq : p.1 = k
        · have hd2 : decide (p.1 = k) = true := by simp [hq]
          rw [List.filter_cons, hd1]
          simp only [if_true, ite_true]
          rw [List.find?_cons, List.find?_cons, hd2]
        · have hd2 : decide (p.1 = k) = false := by simp [hq]
          rw [List.filter_cons, hd1]
          simp only [if_true, ite_true]
          rw [List.find?_cons, List.find?_cons, hd2]
          simpa using ih

theorem captureScreenshot_lookup_ne (s : VisualTraceService)
    (hashFn : List Nat → String) (fetch : FetchResult)
    (stepTitle : Option String) (stepFailed : Bool) (now : Nat)
    (attachOk : Bool) (k : String) (hk : k ≠ s.key) :
    lookupState (captureScreenshot s hashFn fetch stepTitle stepFailed
      now attachOk).service.states k = lookupState s.states k := by
  unfold captureScreenshot
  by_cases hcap : shouldCaptureScreenshot s stepFailed
  case neg => simp [hcap]
  by_cases hlim : hasReachedLimit s
  · simp [hcap, hlim]
  · simp only [hcap, hlim, Bool.not_true, Bool.false_eq_true, if_false,
      ite_false, Bool.true_eq_false, ite_true, if_true]
    cases fetch with
    | err e => simp [captureBody]
    | ok data =>
        by_cases hd : s.config.dedupe
        case neg =>
          simp only [captureBody,
            isDuplicateStep_off s hashFn data (by simpa using hd)]
          cases attachOk <;>
            simp [lookupState_putState_ne s _ k hk]
        case pos =>
          by_cases hm : hashFn data ∈ (getState s).dedupeHashes
          · simp [captureBody,
              isDuplicateStep_seen s hashFn data (by simpa using hd) hm]
          · simp only [captureBody,
              isDuplicateStep_fresh s hashFn data (by simpa using hd) hm,
              getState_putState]
            have hk1 : k ≠ (putState s { getState s with
                dedupeHashes := hashFn data :: (getState s).dedupeHashes }).key := by
              simpa using hk
            cases attachOk <;>
              simp [lookupState_putState_ne _ _ k hk1,
                lookupState_putState_ne s _ k hk]

theorem resetState_lookup_ne (s : VisualTraceService) (k : String)
    (hk : k ≠ s.key) :
    lookupState (resetState s).states k = lookupState s.states k :=
  lookupState_filter_ne s.states s.key k hk

end VisualTraceService

/-- Assemble a service value from its four fields. -/
def mkSvc (states : List (String × VisualTraceState)) (ti : TestInfo)
    (r : Nat) (cfg : VisualTraceConfig) : VisualTraceService :=
  { states := states, testInfo := ti, retryIndex := r, config := cfg }

open VisualTraceService in
/-- C5: distinct attempt keys are fully isolated.  A capture performed
by an engine bound to attempt (ti1, r1) and a reset of that attempt
never change the state record that an engine bound to a different
attempt (ti2, r2) observes over the same states map, and a key that is
absent from the map reads as the fresh record with count 0 and an empty
hash set. -/
theorem C5_attempt_isolation
    (states : List (String × VisualTraceState))
    (cfg1 cfg2 : VisualTraceConfig) (ti1 ti2 : TestInfo) (r1 r2 : Nat)
    (hashFn : List Nat → String)
    (hne : (ti1.testId, r1) ≠ (ti2.testId, r2)) :
    (∀ fetch stepTitle stepFailed now attachOk,
      getState (mkSvc (captureScreenshot (mkSvc states ti1 r1 cfg1) hashFn
          fetch stepTitle stepFailed now attachOk).service.states ti2 r2
          cfg2)
        = getState (mkSvc states ti2 r2 cfg2))
    ∧ getState (mkSvc (resetState (mkSvc states ti1 r1 cfg1)).states ti2
          r2 cfg2)
        = getState (mkSvc states ti2 r2 cfg2)
    ∧ (lookupState states (stateKey ti2.testId r2) = none →
        getState (mkSvc states ti2 r2 cfg2)
          = { screenshotCount := 0, dedupeHashes := [] }) := by
  have hkey : stateKey ti2.testId r2 ≠ stateKey ti1.testId r1 := by
    intro h
    obtain ⟨ht, hr⟩ := stateKey_injective h
    exact hne (by rw [ht, hr])
  refine ⟨?_, ?_, ?_⟩
  · intro fetch stepTitle stepFailed now attachOk
    simp only [getState, key, mkSvc]
    rw [captureScreenshot_lookup_ne _ hashFn fetch stepTitle stepFailed
      now attachOk _ hkey]
  · simp only [getState, key, mkSvc]
    rw [resetState_lookup_ne _ _ hkey]
  · intro habs
    simp only [getState, key, mkSvc, habs, Option.getD_none]

open VisualTraceService in
/-- C5 witness: after a retryIndex 0 attempt for test t1 captures one
screenshot, the retryIndex 1 attempt for the same test identity still
reads the fresh empty record over the resulting states map. -/
theorem C5_attempt_isolation_witness :
    (("t1", 0) : String × Nat) ≠ (("t1", 1) : String × Nat)
    ∧ getState (mkSvc (captureScreenshot (mkSvc [] tiOn 0 svcDedupe.config)
          hashFnDefault (.ok [1]) none false 0 true).service.states tiOn 1
          svcDedupe.config)
      = getState (mkSvc [] tiOn 1 svcDedupe.config) :=
  ⟨by decide,
    (C5_attempt_isolation [] svcDedupe.config svcDedupe.config tiOn tiOn
      0 1 hashFnDefault (by decide)).1 (.ok [1]) none false 0 true⟩

/-- Details passed to the provider syncTestDetails call. -/
structure SyncDetails where
  name : Option String
  status : Option String
  reason : Option String
deriving DecidableEq, Repr

/-- Observable events of the persistent coordinator: a provider
notification, or a logged warning. -/
inductive DeviceEvent where
  | sync (d : SyncDetails)
  | warn (msg : String)
deriving DecidableEq, Repr

/-- The Device fields driving the persistent status sync
(src/device/index.ts lines 30-44). -/
structure DeviceState where
  persistentSyncEnabled : Bool
  hasSyncTestDetails : Bool
  activePersistentKey : Option String
deriving DecidableEq, Repr

namespace DeviceState

/-- shouldSyncPersistent (device/index.ts lines 98-103). -/
def shouldSyncPersistent (d : DeviceState) : Bool :=
  d.persistentSyncEnabled && d.hasSyncTestDetails

/-- persistentKey (device/index.ts lines 105-107). -/
def persistentKey (ti : TestInfo) : String :=
  ti.testId ++ "#" ++ Nat.repr ti.retry

/-- safeSync (device/index.ts lines 130-143): a call to the provider
happens only when the provider exposes syncTestDetails; a throwing
provider is caught there, so the call itself is the observable event. -/
def safeSyncEvents (d : DeviceState) (details : SyncDetails) :
    List DeviceEvent :=
  if d.hasSyncTestDetails then [.sync details] else []

/-- mapPlaywrightStatus (device/index.ts lines 109-120). -/
def mapPlaywrightStatus (st : Option String) : String :=
  match st with
  | some "failed" => "failed"
  | some "timedOut" => "failed"
  | some "interrupted" => "failed"
  | _ => "passed"

/-- failureReason (device/index.ts lines 122-128): the message of the
first recorded error when it is present and non-empty (an empty string
is falsy in JavaScript), otherwise the top-level error message. -/
def failureReason (ti : TestInfo) : Option String :=
  match ti.errors with
  | some m :: _ => if m ≠ "" then some m else ti.errorMsg
  | _ => ti.errorMsg

/-- preparePersistentTest (device/index.ts lines 61-71). -/
def preparePersistentTest (d : DeviceState) (ti : TestInfo) :
    DeviceState × List DeviceEvent :=
  if ¬ shouldSyncPersistent d then (d, [])
  else if d.activePersistentKey = some (persistentKey ti) then (d, [])
  else
    ({ d with activePersistentKey := some (persistentKey ti) },
     safeSyncEvents d
       { name := some ti.title, status := none, reason := none })

/-- finalizePersistentTest (device/index.ts lines 73-96). -/
def finalizePersistentTest (d : DeviceState) (ti : TestInfo) :
    DeviceState × List DeviceEvent :=
  if ¬ shouldSyncPersistent d then (d, [])
  else
    let warns : List DeviceEvent :=
      if d.activePersistentKey = none then
        [.warn "finalizePersistentTest called before preparePersistentTest; syncing anyway."]
      else if d.activePersistentKey ≠ some (persistentKey ti) then
        [.warn "finalizePersistentTest received unexpected test key; syncing anyway."]
      else []
    let status := mapPlaywrightStatus ti.status
    let reason := if status = "failed" then failureReason ti else none
    ({ d with activePersistentKey := none },
     warns ++ safeSyncEvents d
       { name := some ti.title, status := some status, reason := reason })

end DeviceState

open DeviceState in
/-- The details finalizePersistentTest hands to the provider. -/
def finalizeDetails (ti : TestInfo) : SyncDetails :=
  { name := some ti.title,
    status := some (mapPlaywrightStatus ti.status),
    reason := if mapPlaywrightStatus ti.status = "failed" then
        failureReason ti else none }

open DeviceState in
/-- C6: on the sync-enabled persistent coordinator, prepare is
idempotent per attempt (two consecutive prepares for the same attempt
notify the provider exactly once), finalize after prepare notifies
exactly once with the collapsed binary status and the extracted failure
reason and then clears the cursor, the status collapse and the reason
fallback follow the specified tables, and finalize without a preceding
prepare logs a warning and proceeds with the notification anyway. -/
theorem C6_persistent_lifecycle (d : DeviceState) (ti : TestInfo)
    (henabled : d.persistentSyncEnabled = true)
    (hsync : d.hasSyncTestDetails = true)
    (hcur : d.activePersistentKey ≠ some (persistentKey ti)) :
    ((preparePersistentTest d ti).2
        = [.sync { name := some ti.title, status := none, reason := none }]
     ∧ preparePersistentTest (preparePersistentTest d ti).1 ti
        = ((preparePersistentTest d ti).1, []))
    ∧ ((finalizePersistentTest (preparePersistentTest d ti).1 ti).2
        = [.sync (finalizeDetails ti)]
       ∧ (finalizePersistentTest
            (preparePersistentTest d ti).1 ti).1.activePersistentKey
          = none)
    ∧ (∀ st : Option String, mapPlaywrightStatus st
        = if st = some "failed" ∨ st = some "timedOut"
            ∨ st = some "interrupted" then "failed" else "passed")
    ∧ ((∀ m ms, ti.errors = some m :: ms → m ≠ "" →
          failureReason ti = some m)
       ∧ (ti.errors = [] → failureReason ti = ti.errorMsg))
    ∧ (d.activePersistentKey = none →
        (finalizePersistentTest d ti).2
          = [.warn "finalizePersistentTest called before preparePersistentTest; syncing anyway.",
             .sync (finalizeDetails ti)]) := by
  have hss : shouldSyncPersistent d = true := by
    simp [shouldSyncPersistent, henabled, hsync]
  refine ⟨⟨?_, ?_⟩, ⟨?_, ?_⟩, ?_, ⟨?_, ?_⟩, ?_⟩
  · simp [preparePersistentTest, hss, hcur, safeSyncEvents, hsync]
  · simp [preparePersistentTest, hss, hcur, shouldSyncPersistent,
      henabled, hsync]
  · simp [preparePersistentTest, finalizePersistentTest, hss, hcur,
      shouldSyncPersistent, henabled, hsync, safeSyncEvents,
      finalizeDetails]
  · simp [preparePersistentTest, finalizePersistentTest, hss, hcur,
      shouldSyncPersistent, henabled, hsync]
  · intro st
    unfold mapPlaywrightStatus
    split
    · simp
    · simp
    · simp
    · rename_i h1 h2 h3
      have : ¬ (st = some "failed" ∨ st = some "timedOut"
          ∨ st = some "interrupted") := by
        rintro (h | h | h) <;> simp_all
      simp [this]
  · intro m ms herr hm
    unfold failureReason
    rw [herr]
    simp [hm]
  · intro hnil
    unfold failureReason
    rw [hnil]
  · intro hnone
    simp [finalizePersistentTest, hss, hnone, safeSyncEvents, hsync,
      finalizeDetails]

open DeviceState in
/-- C6 witness: a concrete failing attempt with first error message
boom, run through prepare and finalize from an idle coordinator. -/
theorem C6_persistent_lifecycle_witness :
    (finalizePersistentTest
      (preparePersistentTest
        { persistentSyncEnabled := true, hasSyncTestDetails := true,
          activePersistentKey := none }
        { testId := "t9", title := "login test", retry := 0,
          status := some "failed", errors := [some "boom"],
          errorMsg := some "outer", trace := .notSet,
          visualTraceCfg := none }).1
      { testId := "t9", title := "login test", retry := 0,
        status := some "failed", errors := [some "boom"],
        errorMsg := some "outer", trace := .notSet,
        visualTraceCfg := none }).2
    = [.sync { name := some "login test", status := some "failed", reason := some "boom" }] := by
  have h := (C6_persistent_lifecycle
    { persistentSyncEnabled := true, hasSyncTestDetails := true,
      activePersistentKey := none }
    { testId := "t9", title := "login test", retry := 0,
      status := some "failed", errors := [some "boom"],
      errorMsg := some "outer", trace := .notSet,
      visualTraceCfg := none } rfl rfl (by decide)).2.1.1
  simpa using h

/-- The counter fields of a PersistentDeviceContext
(src/fixture/index.ts lines 19-24): the activeOperations counter and
the number of installed idle signals (the idlePromise together with its
resolveIdle; in the source this is a single optional field, so the
count is 0 or 1 whenever the code maintains it correctly). -/
structure PersistentContext where
  activeOperations : Int
  pendingSignals : Nat
deriving DecidableEq, Repr

/-- The three context operations of the source: the increment at the
start of runWithLifecycle, the decrement-and-maybe-resolve in its
finally block, and a waitForLifecycleToComplete call. -/
inductive LifecycleAction where
  | opStart
  | opEnd
  | waitIdle
deriving DecidableEq, Repr

/-- Observable scheduling events of the lifecycle model. -/
inductive LifecycleEvent where
  | idleResolved
  | waitReturnedImmediately
  | waitInstalledSignal
  | waitJoinedExistingSignal
deriving DecidableEq, Repr

/-- One step of the coordinator (runWithLifecycle lines 89-104 and
waitForLifecycleToComplete lines 106-118): opEnd decrements and, when
the counter hits 0 with a pending signal, resolves and clears it;
waitIdle returns immediately at 0, installs the single signal if none
is present, and otherwise awaits the existing promise. -/
def lifecycleStep (s : PersistentContext) (a : LifecycleAction) :
    PersistentContext × List LifecycleEvent :=
  match a with
  | .opStart => ({ s with activeOperations := s.activeOperations + 1 }, [])
  | .opEnd =>
      if s.activeOperations - 1 = 0 ∧ s.pendingSignals ≠ 0 then
        ({ activeOperations := s.activeOperations - 1, pendingSignals := 0 },
         [.idleResolved])
      else
        ({ s with activeOperations := s.activeOperations - 1 }, [])
  | .waitIdle =>
      if s.activeOperations = 0 then (s, [.waitReturnedImmediately])
      else if s.pendingSignals = 0 then
        ({ s with pendingSignals := 1 }, [.waitInstalledSignal])
      else (s, [.waitJoinedExistingSignal])

/-- Run a sequence of lifecycle actions, collecting the events. -/
def runLifecycle (s : PersistentContext) :
    List LifecycleAction → PersistentContext × List LifecycleEvent
  | [] => (s, [])
  | a :: as =>
      let r := lifecycleStep s a
      let r2 := runLifecycle r.1 as
      (r2.1, r.2 ++ r2.2)

/-- Number of operation starts in a trace. -/
def countStarts (tr : List LifecycleAction) : Nat :=
  tr.countP (fun a => decide (a = .opStart))

/-- Number of operation completions in a trace. -/
def countEnds (tr : List LifecycleAction) : Nat :=
  tr.countP (fun a => decide (a = .opEnd))

/-- A trace is well bracketed when no prefix completes more operations
than it started: the decrement runs in the finally block of
runWithLifecycle, so it is always preceded by the matching increment. -/
def WellBracketed (tr : List LifecycleAction) : Prop :=
  ∀ n, n ≤ tr.length →
    countEnds (tr.take n) ≤ countStarts (tr.take n)

/-- The context of a fresh worker (createPersistentContext lines
82-87 plus the absent idle promise). -/
def initialContext : PersistentContext :=
  { activeOperations := 0, pendingSignals := 0 }

/-- The counter laws of the lifecycle model, relative to any starting
context: the final counter equals start plus starts minus ends, stays
nonnegative, and at most one idle signal is ever installed. -/
theorem runLifecycle_counter (tr : List LifecycleAction) :
    ∀ s : PersistentContext,
      0 ≤ s.activeOperations →
      s.pendingSignals ≤ 1 →
      (∀ n, n ≤ tr.length →
        (countEnds (tr.take n) : Int)
          ≤ s.activeOperations + countStarts (tr.take n)) →
      (runLifecycle s tr).1.activeOperations
          = s.activeOperations + countStarts tr - countEnds tr
      ∧ 0 ≤ (runLifecycle s tr).1.activeOperations
      ∧ (runLifecycle s tr).1.pendingSignals ≤ 1 := by
  induction tr with
  | nil =>
      intro s h0 h1 _
      refine ⟨?_, by simpa using h0, by simpa using h1⟩
      simp [runLifecycle, countStarts, countEnds]
  | cons a as ih =>
      intro s h0 h1 h2
      have hcounts : countStarts (a :: as)
          = countStarts as + (if a = .opStart then 1 else 0)
          ∧ countEnds (a :: as)
          = countEnds as + (if a = .opEnd then 1 else 0) := by
        constructor <;> simp [countStarts, countEnds, List.countP_cons]
      cases a with
      | opStart =>
          have hstep : lifecycleStep s .opStart
              = ({ s with activeOperations := s.activeOperations + 1 }, []) := rfl
          have h2' : ∀ n, n ≤ as.length →
              (countEnds (as.take n) : Int)
                ≤ (s.activeOperations + 1) + countStarts (as.take n) := by
            intro n hn
            have := h2 (n + 1) (by simpa using hn)
            simp only [List.take_succ_cons, countStarts, countEnds,
              List.countP_cons] at this ⊢
            simp at this
            omega
          obtain ⟨e1, e2, e3⟩ := ih
            { s with activeOperations := s.activeOperations + 1 }
            (by simp; omega) (by simpa using h1) h2'
          refine ⟨?_, ?_, ?_⟩
          · simp only [runLifecycle, hstep]
            rw [e1]
            rcases hcounts with ⟨hc1, hc2⟩
            rw [hc1, hc2]
            simp
            omega
          · simpa [runLifecycle, hstep] using e2
          · simpa [runLifecycle, hstep] using e3
      | opEnd =>
          have hpos : 1 ≤ s.activeOperations := by
            have := h2 1 (by simp)
            simpa [countStarts, countEnds, List.countP_cons] using this
          have h2' : ∀ n, n ≤ as.length →
              (countEnds (as.take n) : Int)
                ≤ (s.activeOperations - 1) + countStarts (as.take n) := by
            intro n hn
            have := h2 (n + 1) (by simpa using hn)
            simp only [List.take_succ_cons, countStarts, countEnds,
              List.countP_cons] at this ⊢
            simp at this
            omega
          by_cases hres : s.activeOperations - 1 = 0 ∧ s.pendingSignals ≠ 0
          · have hstep : lifecycleStep s .opEnd
                = ({ activeOperations := s.activeOperations - 1,
                     pendingSignals := 0 }, [.idleResolved]) := by
              simp [lifecycleStep, hres]
            obtain ⟨e1, e2, e3⟩ := ih
              { activeOperations := s.activeOperations - 1,
                pendingSignals := 0 }
              (by simp; omega) (by simp) h2'
            refine ⟨?_, ?_, ?_⟩
            · simp only [runLifecycle, hstep]
              rw [e1]
              rcases hcounts with ⟨hc1, hc2⟩
              rw [hc1, hc2]
              simp
              omega
            · simpa [runLifecycle, hstep] using e2
            · simpa [runLifecycle, hstep] using e3
          · have hstep : lifecycleStep s .opEnd
                = ({ s with activeOperations := s.activeOperations - 1 },
                   []) := by
              simp only [lifecycleStep, if_neg hres]
            obtain ⟨e1, e2, e3⟩ := ih
              { s with activeOperations := s.activeOperations - 1 }
              (by simp; omega) (by simpa using h1) h2'
            refine ⟨?_, ?_, ?_⟩
            · simp only [runLifecycle, hstep]
              rw [e1]
              rcases hcounts with ⟨hc1, hc2⟩
              rw [hc1, hc2]
              simp
              omega
            · simpa [runLifecycle, hstep] using e2
            · simpa [runLifecycle, hstep] using e3
      | waitIdle =>
          have h2' : ∀ n, n ≤ as.length →
              (countEnds (as.take n) : Int)
                ≤ s.activeOperations + countStarts (as.take n) := by
            intro n hn
            have := h2 (n + 1) (by simpa using hn)
            simp only [List.take_succ_cons, countStarts, countEnds,
              List.countP_cons] at this ⊢
            simp at this
            omega
          have harith : ∀ s1 : PersistentContext,
              s1.activeOperations = s.activeOperations →
              s1.pendingSignals ≤ 1 →
              (runLifecycle s1 as).1.activeOperations
                  = s.activeOperations + countStarts (.waitIdle :: as)
                    - countEnds (.waitIdle :: as)
              ∧ 0 ≤ (runLifecycle s1 as).1.activeOperations
              ∧ (runLifecycle s1 as).1.pendingSignals ≤ 1 := by
            intro s1 ha hp
            obtain ⟨e1, e2, e3⟩ := ih s1 (ha ▸ h0) hp (ha ▸ h2')
            refine ⟨?_, e2, e3⟩
            rw [e1, ha]
            rcases hcounts with ⟨hc1, hc2⟩
            rw [hc1, hc2]
            simp
          by_cases hz : s.activeOperations = 0
          · have hstep : lifecycleStep s .waitIdle
                = (s, [.waitReturnedImmediately]) := by
              simp [lifecycleStep, hz]
            obtain ⟨e1, e2, e3⟩ := harith s rfl h1
            exact ⟨by simpa [runLifecycle, hstep] using e1,
              by simpa [runLifecycle, hstep] using e2,
              by simpa [runLifecycle, hstep] using e3⟩
          · by_cases hp : s.pendingSignals = 0
            · have hstep : lifecycleStep s .waitIdle
                  = ({ s with pendingSignals := 1 },
                     [.waitInstalledSignal]) := by
                simp [lifecycleStep, hz, hp]
              obtain ⟨e1, e2, e3⟩ := harith
                { s with pendingSignals := 1 } rfl (by simp)
              exact ⟨by simpa [runLifecycle, hstep] using e1,
                by simpa [runLifecycle, hstep] using e2,
                by simpa [runLifecycle, hstep] using e3⟩
            · have hstep : lifecycleStep s .waitIdle
                  = (s, [.waitJoinedExistingSignal]) := by
                simp [lifecycleStep, hz, hp]
              obtain ⟨e1, e2, e3⟩ := harith s rfl h1
              exact ⟨by simpa [runLifecycle, hstep] using e1,
                by simpa [runLifecycle, hstep] using e2,
                by simpa [runLifecycle, hstep] using e3⟩

/-- C7: over every well-bracketed trace from a fresh worker context,
activeOperations equals starts minus ends and never goes negative, and
at most one pending idle signal exists; waitUntilIdle resolves
immediately exactly at counter 0; the idle signal is resolved exactly
by the decrement that takes the counter from 1 to 0 while a signal is
pending; and with two operations in flight, a waitUntilIdle is not
resolved by the first completion but exactly by the second. -/
theorem C7_idle_wait (tr : List LifecycleAction)
    (hwb : WellBracketed tr) :
    ((runLifecycle initialContext tr).1.activeOperations
        = (countStarts tr : Int) - countEnds tr
     ∧ 0 ≤ (runLifecycle initialContext tr).1.activeOperations
     ∧ (runLifecycle initialContext tr).1.pendingSignals ≤ 1)
    ∧ (∀ s : PersistentContext, s.activeOperations = 0 →
        lifecycleStep s .waitIdle = (s, [.waitReturnedImmediately]))
    ∧ (∀ (s : PersistentContext) (a : LifecycleAction),
        .idleResolved ∈ (lifecycleStep s a).2 ↔
          a = .opEnd ∧ s.activeOperations = 1 ∧ s.pendingSignals ≠ 0)
    ∧ (LifecycleEvent.idleResolved ∉ (runLifecycle initialContext
        [.opStart, .opStart, .waitIdle, .opEnd]).2
       ∧ (runLifecycle initialContext
          [.opStart, .opStart, .waitIdle, .opEnd, .opEnd]).2
        = [.waitInstalledSignal, .idleResolved]) := by
  refine ⟨?_, ?_, ?_, by decide, by decide⟩
  · have h := runLifecycle_counter tr initialContext (by decide) (by decide)
      (by
        intro n hn
        have := hwb n hn
        simp only [initialContext]
        omega)
    obtain ⟨e1, e2, e3⟩ := h
    refine ⟨?_, e2, e3⟩
    rw [e1]
    simp [initialContext]
  · intro s hz
    simp [lifecycleStep, hz]
  · intro s a
    cases a with
    | opStart => simp [lifecycleStep]
    | opEnd =>
        by_cases hres : s.activeOperations - 1 = 0 ∧ s.pendingSignals ≠ 0
        · simp only [lifecycleStep, if_pos hres]
          constructor
          · intro _
            have h1 := hres.1
            exact ⟨trivial, by omega, hres.2⟩
          · intro _
            simp
        · simp only [lifecycleStep, if_neg hres]
          simp only [List.not_mem_nil, false_iff]
          rintro ⟨-, h1, h2⟩
          exact hres ⟨by omega, h2⟩
    | waitIdle =>
        by_cases hz : s.activeOperations = 0
        · simp [lifecycleStep, hz]
        · by_cases hp : s.pendingSignals = 0 <;>
            simp [lifecycleStep, hz, hp]

instance (tr : List LifecycleAction) : Decidable (WellBracketed tr) := by
  unfold WellBracketed
  infer_instance

/-- C7 witness: the theorem applied to the concrete well-bracketed
trace with one start and one completion. -/
theorem C7_idle_wait_witness :
    WellBracketed [.opStart, .opEnd]
    ∧ 0 ≤ (runLifecycle initialContext
        [.opStart, .opEnd]).1.activeOperations :=
  ⟨by decide,
    (C7_idle_wait [.opStart, .opEnd] (by decide)).1.2.1⟩

/-- The ambient state read and written by the boxedStep completion
handler (src/utils.ts lines 39-86): the module-level service singleton,
the result of test.info() when available, whether the receiver resolves
an initializeVisualTrace hook, and whether a takeScreenshot capability
is resolvable from the receiver or its owning device. -/
structure TraceWorld where
  singleton : Option VisualTraceService
  testInfoAvail : Option TestInfo
  hasInitHook : Bool
  hasTakeScreenshot : Bool
deriving DecidableEq, Repr

/-- initializeVisualTrace (service.ts lines 265-272): a fresh service
bound to the given attempt, with constructor defaults applied. -/
def initializeVisualTrace (ti : TestInfo) (retryIndex : Nat)
    (cfg : Option VisualTraceConfigInput) : VisualTraceService :=
  { states := [], testInfo := ti, retryIndex := retryIndex,
    config := resolveConfig cfg }

/-- The boxedStep completion handler, the finally block of the wrapped
step (src/utils.ts lines 49-86): read the singleton; if absent, lazily
initialize it from test.info() through the receiver's hook (failures of
that path are swallowed by its inner catch); then, if an engine and a
screenshot capability are available, run captureScreenshot. -/
def boxedCompletion (w : TraceWorld) (hashFn : List Nat → String)
    (fetch : FetchResult) (ctxName : String) (now : Nat) (attachOk : Bool)
    (stepFailed : Bool) : TraceWorld × Option Attachment × Bool :=
  let w1 :=
    match w.singleton, w.testInfoAvail, w.hasInitHook with
    | none, some ti, true =>
        { w with singleton := some (initializeVisualTrace ti ti.retry ti.visualTraceCfg) }
    | _, _, _ => w
  match w1.singleton, w1.hasTakeScreenshot with
  | some svc, true =>
      let r := VisualTraceService.captureScreenshot svc hashFn fetch
        (some ctxName) stepFailed now attachOk
      ({ w1 with singleton := some r.service }, r.attachment, r.warned)
  | _, _ => (w1, none, false)

/-- The boxedStep replacement method (src/utils.ts lines 10-92): run
the wrapped action; in the finally-style completion handler run the
instrumentation side effects with stepFailed reflecting whether the
action threw; then return the action result unchanged, or re-throw the
original error unchanged. -/
def boxedStep {α : Type} (actionResult : Except String α) (w : TraceWorld)
    (hashFn : List Nat → String) (fetch : FetchResult) (ctxName : String)
    (now : Nat) (attachOk : Bool) :
    Except String α × TraceWorld × Option Attachment × Bool :=
  match actionResult with
  | .ok v =>
      (.ok v, boxedCompletion w hashFn fetch ctxName now attachOk false)
  | .error e =>
      (.error e, boxedCompletion w hashFn fetch ctxName now attachOk true)

/-- C8: the wrapper is transparent.  For every wrapped action outcome
and every instrumentation environment, including ones whose screenshot
fetch or attach sink throws, boxedStep returns exactly the action's own
result (same value, or the same exception re-raised), and the
instrumentation side effects have run in the completion handler with
stepFailed set exactly when the action threw. -/
theorem C8_wrapper_transparent {α : Type} (actionResult : Except String α)
    (w : TraceWorld) (hashFn : List Nat → String) (fetch : FetchResult)
    (ctxName : String) (now : Nat) (attachOk : Bool) :
    (boxedStep actionResult w hashFn fetch ctxName now attachOk).1
        = actionResult
    ∧ (∀ v, actionResult = .ok v →
        (boxedStep actionResult w hashFn fetch ctxName now attachOk).2
          = boxedCompletion w hashFn fetch ctxName now attachOk false)
    ∧ (∀ e, actionResult = .error e →
        (boxedStep actionResult w hashFn fetch ctxName now attachOk).2
          = boxedCompletion w hashFn fetch ctxName now attachOk true) := by
  refine ⟨?_, ?_, ?_⟩
  · cases actionResult <;> rfl
  · intro v hv
    subst hv
    rfl
  · intro e he
    subst he
    rfl

/-- C8 witness: a throwing action with a throwing screenshot fetch on a
concrete world still re-raises exactly the original error. -/
theorem C8_wrapper_transparent_witness :
    (boxedStep (Except.error "tap failed" : Except String Nat)
      { singleton := some svcDedupe, testInfoAvail := some tiOn,
        hasInitHook := true, hasTakeScreenshot := true }
      hashFnDefault (.err "screenshot failed") "tap" 0 true).1
      = Except.error "tap failed"
    ∧ (boxedStep (Except.error "tap failed" : Except String Nat)
        { singleton := some svcDedupe, testInfoAvail := some tiOn,
          hasInitHook := true, hasTakeScreenshot := true }
        hashFnDefault (.err "screenshot failed") "tap" 0 true).2
      = boxedCompletion
          { singleton := some svcDedupe, testInfoAvail := some tiOn,
            hasInitHook := true, hasTakeScreenshot := true }
          hashFnDefault (.err "screenshot failed") "tap" 0 true true :=
  ⟨(C8_wrapper_transparent (Except.error "tap failed" : Except String Nat)
      { singleton := some svcDedupe, testInfoAvail := some tiOn,
        hasInitHook := true, hasTakeScreenshot := true }
      hashFnDefault (.err "screenshot failed") "tap" 0 true).1,
   (C8_wrapper_transparent (Except.error "tap failed" : Except String Nat)
      { singleton := some svcDedupe, testInfoAvail := some tiOn,
        hasInitHook := true, hasTakeScreenshot := true }
      hashFnDefault (.err "screenshot failed") "tap" 0 true).2.2
      "tap failed" rfl⟩

/-- A worker-scoped persistent-device picture: the coordinator context
of this worker, the instrumentation world, and the device sync state. -/
structure WorkerState where
  ctx : PersistentContext
  world : TraceWorld
  dev : DeviceState
deriving DecidableEq, Repr

/-- One instrumented action step on the persistent device.  The
boxedStep wrapper (src/utils.ts) holds no reference to the worker
coordinator context, so the step can only change the trace world. -/
def instrumentedActionStep {α : Type} (ws : WorkerState)
    (actionResult : Except String α) (hashFn : List Nat → String)
    (fetch : FetchResult) (ctxName : String) (now : Nat)
    (attachOk : Bool) :
    Except String α × WorkerState × Option Attachment × Bool :=
  let r := boxedStep actionResult ws.world hashFn fetch ctxName now attachOk
  (r.1, { ws with world := r.2.1 }, r.2.2.1, r.2.2.2)

/-- The beforeEach hook of the fixture for a persistent worker
(src/fixture/index.ts lines 234-246): preparePersistentTest wrapped in
runWithLifecycle, which increments the counter, runs the task, then
decrements and resolves a pending idle signal at 0. -/
def beforeEachHook (ws : WorkerState) (ti : TestInfo) :
    WorkerState × List DeviceEvent × List LifecycleEvent :=
  let ctx1 := (lifecycleStep ws.ctx .opStart).1
  let prep := DeviceState.preparePersistentTest ws.dev ti
  let r := lifecycleStep ctx1 .opEnd
  ({ ctx := r.1, world := ws.world, dev := prep.1 }, prep.2, r.2)

/-- The afterEach hook of the fixture (src/fixture/index.ts lines
248-260): finalizePersistentTest wrapped in runWithLifecycle. -/
def afterEachHook (ws : WorkerState) (ti : TestInfo) :
    WorkerState × List DeviceEvent × List LifecycleEvent :=
  let ctx1 := (lifecycleStep ws.ctx .opStart).1
  let fin := DeviceState.finalizePersistentTest ws.dev ti
  let r := lifecycleStep ctx1 .opEnd
  ({ ctx := r.1, world := ws.world, dev := fin.1 }, fin.2, r.2)

/-- A concrete worker state with an idle coordinator and a capture-on
instrumentation world. -/
def cwIdle : WorkerState :=
  { ctx := initialContext,
    world := { singleton := some svcDedupe, testInfoAvail := some tiOn,
               hasInitHook := true, hasTakeScreenshot := true },
    dev := { persistentSyncEnabled := true, hasSyncTestDetails := true,
             activePersistentKey := none } }

/-- C9, counterexample: an instrumented action on the persistent device
performs its screenshot-capture side effect (an attachment is produced)
while the coordinator counter neither registers it before nor after:
the context is bit-for-bit unchanged, remains at 0 active operations,
and a simultaneous waitUntilIdle would return immediately.  So this
instrumented operation is not bracketed by activeOperations, refuting
the claim at this input. -/
theorem C9_counterexample :
    (instrumentedActionStep cwIdle (Except.ok 0) hashFnDefault (.ok [1])
        "tap" 0 true).2.2.1 ≠ none
    ∧ (instrumentedActionStep cwIdle (Except.ok 0) hashFnDefault (.ok [1])
        "tap" 0 true).2.1.ctx = cwIdle.ctx
    ∧ cwIdle.ctx.activeOperations = 0
    ∧ lifecycleStep cwIdle.ctx .waitIdle
        = (cwIdle.ctx, [.waitReturnedImmediately]) := by
  decide

/-- C9 amended: only the per-attempt prepare and finalize lifecycle
operations (the beforeEach and afterEach hooks) are bracketed by the
coordinator's activeOperations counter: each hook raises the counter by
one for the duration of its provider sync and restores it afterwards,
while an instrumented action step never touches the coordinator
context at all.  Teardown's waitUntilIdle therefore guarantees only
that no prepare or finalize provider sync is still in flight;
screenshot captures are instead awaited inside each step before the
step returns. -/
theorem C9_lifecycle_bracketing {α : Type} (ws : WorkerState)
    (ti : TestInfo) (actionResult : Except String α)
    (hashFn : List Nat → String) (fetch : FetchResult) (ctxName : String)
    (now : Nat) (attachOk : Bool) :
    ((lifecycleStep ws.ctx .opStart).1.activeOperations
        = ws.ctx.activeOperations + 1
     ∧ (beforeEachHook ws ti).1.ctx.activeOperations
        = ws.ctx.activeOperations
     ∧ (afterEachHook ws ti).1.ctx.activeOperations
        = ws.ctx.activeOperations)
    ∧ (instrumentedActionStep ws actionResult hashFn fetch ctxName now
        attachOk).2.1.ctx = ws.ctx := by
  refine ⟨⟨rfl, ?_, ?_⟩, ?_⟩
  · simp only [beforeEachHook, lifecycleStep]
    split <;> simp
  · simp only [afterEachHook, lifecycleStep]
    split <;> simp
  · cases actionResult <;> rfl

/-- C9 witness: the bracketing theorem applied to the concrete idle
worker state. -/
theorem C9_lifecycle_bracketing_witness :
    (beforeEachHook cwIdle tiOn).1.ctx.activeOperations
        = cwIdle.ctx.activeOperations
    ∧ (instrumentedActionStep cwIdle (Except.ok 0) hashFnDefault
        (.ok [1]) "tap" 0 true).2.1.ctx = cwIdle.ctx :=
  ⟨(C9_lifecycle_bracketing cwIdle tiOn (Except.ok 0) hashFnDefault
      (.ok [1]) "tap" 0 true).1.2.1,
   (C9_lifecycle_bracketing cwIdle tiOn (Except.ok 0) hashFnDefault
      (.ok [1]) "tap" 0 true).2⟩
